import Mathlib

/-!
Verification development for the request-orchestration core of the
English-learning tutor client. The definitions below are a shallow
embedding of the service module (fallback-chain caller, credential and
model-preference resolution, response parsing, and the task callers).
JavaScript truthiness on nullable strings is modelled explicitly with
Option String; the remote generateContent capability is modelled as an
oracle parameter of each service function, since its behaviour is
external to the program.
-/

/-- Parsed JSON values, the result type of the platform JSON.parse.
Numbers are modelled as integers: no input considered in this
development uses fractional or exponent forms. -/
inductive Json where
  | null : Json
  | bool (b : Bool) : Json
  | num (n : Int) : Json
  | str (s : String) : Json
  | arr (elems : List Json) : Json
  | obj (fields : List (String × Json)) : Json
deriving Repr, Inhabited

/-- JSON insignificant whitespace. -/
def skipWs (l : List Char) : List Char :=
  l.dropWhile (fun c => c == ' ' || c == '\t' || c == '\n' || c == '\r')

/-- The two-character escape forms of a JSON string, paired with the
characters they denote. A backslash-u escape is not modelled; no input
considered in this development uses one. -/
def escapePairs : List (Char × Char) :=
  [('n', '\x0a'), ('t', '\x09'), ('r', '\x0d'), ('\"', '\"'),
   ('\\', '\\'), ('/', '/'), ('b', '\x08'), ('f', '\x0c')]

/-- Body of a JSON string after the opening quote: returns the decoded
characters and the remainder after the closing quote. Unicode escape
sequences are not modelled; no input considered here uses them. -/
def parseStringBody : List Char → Option (List Char × List Char)
  | [] => none
  | '\"' :: rest => some ([], rest)
  | '\\' :: c :: rest =>
    match (escapePairs.find? (fun p => p.1 == c)).map (fun p => p.2) with
    | some e =>
      match parseStringBody rest with
      | some (s, t) => some (e :: s, t)
      | none => none
    | none => none
  | c :: rest =>
    match parseStringBody rest with
    | some (s, t) => some (c :: s, t)
    | none => none

/-- Decimal digits to a natural number. -/
def digitsToNat (ds : List Char) : Nat :=
  ds.foldl (fun acc c => acc * 10 + (c.toNat - 48)) 0

/-- A JSON number at the head of the input. Only the integer forms are
modelled; no input considered in this development has a fraction or an
exponent. -/
def parseNumber (l : List Char) : Option (Json × List Char) :=
  match l with
  | '-' :: rest =>
    let ds := rest.takeWhile Char.isDigit
    if ds.isEmpty then none
    else some (Json.num (-(digitsToNat ds : Int)), rest.dropWhile Char.isDigit)
  | _ =>
    let ds := l.takeWhile Char.isDigit
    if ds.isEmpty then none
    else some (Json.num (digitsToNat ds), l.dropWhile Char.isDigit)

mutual

/-- A JSON value at the head of the input; fuel bounds the recursion. -/
def parseValue : Nat → List Char → Option (Json × List Char)
  | 0, _ => none
  | fuel + 1, l =>
    let l' := skipWs l
    if (['t', 'r', 'u', 'e'] : List Char).isPrefixOf l' then
      some (Json.bool true, l'.drop 4)
    else if (['f', 'a', 'l', 's', 'e'] : List Char).isPrefixOf l' then
      some (Json.bool false, l'.drop 5)
    else if (['n', 'u', 'l', 'l'] : List Char).isPrefixOf l' then
      some (Json.null, l'.drop 4)
    else
      match l' with
      | '\"' :: rest =>
        (parseStringBody rest).map (fun p => (Json.str (String.mk p.1), p.2))
      | '\x7b' :: rest =>
        (match skipWs rest with
         | '\x7d' :: t => some (Json.obj [], t)
         | _ => (parseMembers fuel rest).map (fun p => (Json.obj p.1, p.2)))
      | '[' :: rest =>
        (match skipWs rest with
         | ']' :: t => some (Json.arr [], t)
         | _ => (parseElems fuel rest).map (fun p => (Json.arr p.1, p.2)))
      | _ => parseNumber l'

/-- One or more key-value members of a JSON object, up to and including
the closing brace. -/
def parseMembers : Nat → List Char → Option (List (String × Json) × List Char)
  | 0, _ => none
  | fuel + 1, l =>
    match skipWs l with
    | '\"' :: rest =>
      (match parseStringBody rest with
       | none => none
       | some (key, afterKey) =>
         match skipWs afterKey with
         | ':' :: afterColon =>
           (match parseValue fuel afterColon with
            | none => none
            | some (v, afterVal) =>
              match skipWs afterVal with
              | ',' :: afterComma =>
                (parseMembers fuel afterComma).map
                  (fun p => ((String.mk key, v) :: p.1, p.2))
              | '\x7d' :: t => some ([(String.mk key, v)], t)
              | _ => none)
         | _ => none)
    | _ => none

/-- One or more elements of a JSON array, up to and including the
closing bracket. -/
def parseElems : Nat → List Char → Option (List Json × List Char)
  | 0, _ => none
  | fuel + 1, l =>
    match parseValue fuel l with
    | none => none
    | some (v, afterVal) =>
      match skipWs afterVal with
      | ',' :: afterComma =>
        (parseElems fuel afterComma).map (fun p => (v :: p.1, p.2))
      | ']' :: t => some ([v], t)
      | _ => none

end

/-- Model of the platform JSON.parse: none models a thrown SyntaxError.
The whole input, up to trailing whitespace, must be consumed. -/
def jsonParse (s : String) : Option Json :=
  match parseValue (s.length + 2) s.data with
  | some (v, rest) => if (skipWs rest).isEmpty then some v else none
  | none => none

/-- The global regex replacement of the source cleanJsonString: delete,
scanning left to right, each occurrence of three backticks followed by
the word json and an optional newline, and each occurrence of bare
three backticks. -/
def stripFences : List Char → List Char
  | '\x60' :: '\x60' :: '\x60' :: 'j' :: 's' :: 'o' :: 'n' :: '\n' :: rest =>
    stripFences rest
  | '\x60' :: '\x60' :: '\x60' :: 'j' :: 's' :: 'o' :: 'n' :: rest =>
    stripFences rest
  | '\x60' :: '\x60' :: '\x60' :: rest => stripFences rest
  | c :: cs => c :: stripFences cs
  | [] => []

/-- Strip leading and trailing whitespace, as the trim method does. -/
def trimChars (l : List Char) : List Char :=
  ((l.dropWhile Char.isWhitespace).reverse.dropWhile Char.isWhitespace).reverse

/-- Source cleanJsonString: remove the code-fence markers everywhere,
then trim surrounding whitespace. -/
def cleanJsonString (s : String) : String :=
  String.mk (trimChars (stripFences s.data))

/-- One entry of the SUPPORTED_MODELS table. -/
structure ModelInfo where
  id : String
  name : String
  desc : String
  isNew : Option Bool := none

/-- The SUPPORTED_MODELS table of the source. -/
def SUPPORTED_MODELS : List ModelInfo :=
  [ { id := "gemini-3-flash-preview", name := "Gemini 3 Flash",
      desc := "Fastest, low latency (Default)", isNew := some true },
    { id := "gemini-3-pro-preview", name := "Gemini 3 Pro",
      desc := "High intelligence, complex tasks", isNew := some true },
    { id := "gemini-2.5-flash", name := "Gemini 2.5 Flash",
      desc := "Balanced performance" } ]

/-- The FALLBACK_ORDER constant of the source. -/
def FALLBACK_ORDER : List String :=
  ["gemini-3-flash-preview", "gemini-3-pro-preview", "gemini-2.5-flash"]

/-- Ambient state read by the service module: whether a window object
exists, the two localStorage entries, and the two environment
variables. A value of none models an absent entry. -/
structure Env where
  hasWindow : Bool
  localApiKey : Option String
  envApiKey : Option String
  envGeminiKey : Option String
  savedModel : Option String

/-- The client handle constructed per attempt by new GoogleGenAI. -/
structure GoogleGenAI where
  apiKey : String

/-- JavaScript truthiness of a nullable string: null, undefined and the
empty string are falsy. -/
def truthyOpt : Option String → Bool
  | none => false
  | some s => !s.isEmpty

/-- Source getApiKey: localStorage first when a window exists, then the
API_KEY environment variable, then GEMINI_API_KEY, else the empty
string. -/
def getApiKey (env : Env) : String :=
  if env.hasWindow && truthyOpt env.localApiKey then env.localApiKey.getD ""
  else if truthyOpt env.envApiKey then env.envApiKey.getD ""
  else if truthyOpt env.envGeminiKey then env.envGeminiKey.getD ""
  else ""

/-- The currentModel computation inside callAIWithRetry: the saved
preference when a window exists and the saved value is truthy and in
the supported set, else the fixed default. -/
def resolveCurrentModel (env : Env) : String :=
  if env.hasWindow then
    match env.savedModel with
    | some s =>
      if !s.isEmpty && SUPPORTED_MODELS.any (fun m => m.id == s) then s
      else "gemini-3-flash-preview"
    | none => "gemini-3-flash-preview"
  else "gemini-3-flash-preview"

/-- Deduplication keeping first occurrences, with the set of already
seen elements as accumulator: the semantics of building a Set from a
list and converting back to an array. -/
def dedupFirstAux (seen : List String) : List String → List String
  | [] => []
  | x :: xs =>
    if seen.contains x then dedupFirstAux seen xs
    else x :: dedupFirstAux (x :: seen) xs

/-- Array.from applied to new Set: keep the first occurrence of each
element. -/
def dedupFirst (l : List String) : List String :=
  dedupFirstAux [] l

/-- The uniqueFallbacks list of callAIWithRetry: current model first,
then the fallback order, duplicates removed keeping first
occurrences. -/
def candidateChain (env : Env) : List String :=
  dedupFirst (resolveCurrentModel env :: FALLBACK_ORDER)

/-- The error thrown by callAIWithRetry when every candidate failed.
When the chain was empty the lastError variable is still null and the
optional-chaining access to its message interpolates as undefined. -/
def exhaustedError (lastError : Option String) : String :=
  "System overloaded or Model Error. Please try again later. (Last error: " ++
    (match lastError with
     | some msg => msg
     | none => "undefined") ++ ")"

/-- The error thrown by callAIWithRetry when no API key resolves. -/
def missingKeyError : String :=
  "API Key is missing. Please click \x27Settings\x27 to add your key."

/-- The for loop of callAIWithRetry over the candidate models, carrying
the lastError variable. A fresh client is constructed for each attempt;
client construction is pure here, so each attempt receives an equal
handle. Besides the result, the list of models actually attempted is
returned, so that attempt counts are part of the model. -/
def retryLoop {T : Type} (apiKey : String)
    (operationFn : String → GoogleGenAI → Except String T) :
    List String → Option String → Except String T × List String
  | [], lastError => (Except.error (exhaustedError lastError), [])
  | model :: rest, lastError =>
    match operationFn model ⟨apiKey⟩ with
    | Except.ok v => (Except.ok v, [model])
    | Except.error e =>
      let r := retryLoop apiKey operationFn rest (some e)
      (r.1, model :: r.2)

/-- Source callAIWithRetry. The operationName parameter is used by the
source only for console logging, which is elided. The candidate chain
construction is factored into candidateChain above. -/
def callAIWithRetry {T : Type} (env : Env) (operationName : String)
    (operationFn : String → GoogleGenAI → Except String T) :
    Except String T × List String :=
  let apiKey := getApiKey env
  if apiKey.isEmpty then (Except.error missingKeyError, [])
  else retryLoop apiKey operationFn (candidateChain env) none

/-- The observable part of a generateContent response: the text
accessor and the inline audio data reached through the first candidate
part. A value of none models an absent or undefined field. -/
structure GenResponse where
  text : Option String
  inlineAudio : Option String

/-- The expression applying the logical-or default to the response
text, as written in each JSON task caller. -/
def textOrEmptyObject (t : Option String) : String :=
  if truthyOpt t then t.getD "" else "\x7b\x7d"

/-- Message of the SyntaxError thrown by JSON.parse on malformed input;
the exact wording is engine specific and only its identity matters
here. -/
def jsonParseErrorMsg : String := "Unexpected token in JSON"

/-- Message of the TypeError thrown by a property access on null. -/
def typeErrorNullMsg : String :=
  "Cannot read properties of null (reading \x27response\x27)"

/-- The operation closure passed by generateSpeech to callAIWithRetry:
request audio-modality content and fail when no inline audio came
back. The remote generateContent call is the oracle parameter
genContent, taking the input text, the model and the client. A falsy
(absent or empty) audio payload raises the same error the source
throws. -/
def generateSpeechOp
    (genContent : String → String → GoogleGenAI → Except String GenResponse)
    (text : String) (model : String) (ai : GoogleGenAI) : Except String String :=
  match genContent text model ai with
  | Except.error e => Except.error e
  | Except.ok response =>
    if truthyOpt response.inlineAudio then Except.ok (response.inlineAudio.getD "")
    else Except.error "No audio generated"

/-- Source generateSpeech: run the operation through the retry wrapper
and catch any final rejection, returning the empty string instead. -/
def generateSpeech (env : Env)
    (genContent : String → String → GoogleGenAI → Except String GenResponse)
    (text : String) : String :=
  match (callAIWithRetry env "generateSpeech" (generateSpeechOp genContent text)).1 with
  | Except.ok audio => audio
  | Except.error _ => ""

/-- The operation closure of analyzeWriting: call generateContent,
default an untruthy text to an empty JSON object, strip fences and
parse. The prompt built from the student text is part of the request to
the external capability and is folded into the oracle genContent; it
does not influence control flow. The source casts the parsed value
without validating it, so the result is an arbitrary JSON value. -/
def analyzeWritingOp
    (genContent : String → GoogleGenAI → Except String GenResponse)
    (model : String) (ai : GoogleGenAI) : Except String Json :=
  match genContent model ai with
  | Except.error e => Except.error e
  | Except.ok response =>
    let jsonText := cleanJsonString (textOrEmptyObject response.text)
    match jsonParse jsonText with
    | some j => Except.ok j
    | none => Except.error jsonParseErrorMsg

/-- Source analyzeWriting: the writing-analysis operation run through
the retry wrapper. -/
def analyzeWriting (env : Env)
    (genContent : String → GoogleGenAI → Except String GenResponse) :
    Except String Json × List String :=
  callAIWithRetry env "analyzeWriting" (analyzeWritingOp genContent)

/-- The operation closure of gradeSpeakingSession; its response
handling is the same parse pipeline as analyzeWriting. -/
def gradeSpeakingSessionOp
    (genContent : String → GoogleGenAI → Except String GenResponse)
    (model : String) (ai : GoogleGenAI) : Except String Json :=
  match genContent model ai with
  | Except.error e => Except.error e
  | Except.ok response =>
    let jsonText := cleanJsonString (textOrEmptyObject response.text)
    match jsonParse jsonText with
    | some j => Except.ok j
    | none => Except.error jsonParseErrorMsg

/-- Source gradeSpeakingSession run through the retry wrapper. -/
def gradeSpeakingSession (env : Env)
    (genContent : String → GoogleGenAI → Except String GenResponse) :
    Except String Json × List String :=
  callAIWithRetry env "gradeSpeakingSession" (gradeSpeakingSessionOp genContent)

/-- The operation closure of analyzePronunciation; its response
handling is the same parse pipeline as analyzeWriting. -/
def analyzePronunciationOp
    (genContent : String → GoogleGenAI → Except String GenResponse)
    (model : String) (ai : GoogleGenAI) : Except String Json :=
  match genContent model ai with
  | Except.error e => Except.error e
  | Except.ok response =>
    let jsonText := cleanJsonString (textOrEmptyObject response.text)
    match jsonParse jsonText with
    | some j => Except.ok j
    | none => Except.error jsonParseErrorMsg

/-- Source analyzePronunciation run through the retry wrapper. -/
def analyzePronunciation (env : Env)
    (genContent : String → GoogleGenAI → Except String GenResponse) :
    Except String Json × List String :=
  callAIWithRetry env "analyzePronunciation" (analyzePronunciationOp genContent)

/-- JavaScript truthiness of a possibly undefined JSON value. -/
def jsTruthy : Option Json → Bool
  | none => false
  | some Json.null => false
  | some (Json.bool b) => b
  | some (Json.num n) => n != 0
  | some (Json.str s) => !s.isEmpty
  | some (Json.arr _) => true
  | some (Json.obj _) => true

/-- JavaScript string coercion of a JSON value, used when a parsed
field is handed to generateSpeech as its text argument. -/
def jsStringOf : Json → String
  | Json.null => "null"
  | Json.bool true => "true"
  | Json.bool false => "false"
  | Json.num n => toString n
  | Json.str s => s
  | Json.arr _ => ""
  | Json.obj _ => "[object Object]"

/-- Property access on a parsed JSON value: a named field of an object,
undefined otherwise. Access on null throws and is handled separately at
the use site. -/
def jsonField (j : Json) (k : String) : Option Json :=
  match j with
  | Json.obj fields => (fields.find? (fun f => f.1 == k)).map (fun f => f.2)
  | _ => none

/-- The record returned by one examiner turn. -/
structure ExaminerTurn where
  userTranscription : Json
  aiResponse : Option Json
  aiAudioBase64 : String
deriving Repr

/-- The operation closure of interactWithExaminer: call
generateContent, parse the JSON reply, and when the parsed response
field is truthy run the nested best-effort speech synthesis through the
same retry wrapper, with the same ambient environment. The prompt and
audio parts of the request are folded into the oracle genContent. A
null parse result makes the property access on it throw, which the
retry loop of the caller treats as an attempt failure. -/
def interactOp
    (genContent : String → GoogleGenAI → Except String GenResponse)
    (tts : String → String → GoogleGenAI → Except String GenResponse)
    (env : Env) (model : String) (ai : GoogleGenAI) : Except String ExaminerTurn :=
  match genContent model ai with
  | Except.error e => Except.error e
  | Except.ok response =>
    let jsonText := cleanJsonString (textOrEmptyObject response.text)
    match jsonParse jsonText with
    | none => Except.error jsonParseErrorMsg
    | some result =>
      match result with
      | Json.null => Except.error typeErrorNullMsg
      | _ =>
        let respField := jsonField result "response"
        let aiAudioBase64 :=
          if jsTruthy respField then
            generateSpeech env tts (jsStringOf (respField.getD Json.null))
          else ""
        Except.ok
          ⟨(if jsTruthy (jsonField result "transcription") then
              (jsonField result "transcription").getD Json.null
            else Json.str ""),
           respField, aiAudioBase64⟩

/-- Source interactWithExaminer run through the retry wrapper. -/
def interactWithExaminer (env : Env)
    (genContent : String → GoogleGenAI → Except String GenResponse)
    (tts : String → String → GoogleGenAI → Except String GenResponse) :
    Except String ExaminerTurn × List String :=
  callAIWithRetry env "interactWithExaminer" (interactOp genContent tts env)

/-- Every element produced by the deduplication is an element of the
input and was not in the seen accumulator. -/
theorem mem_dedupFirstAux (l : List String) :
    ∀ (seen : List String) (a : String),
      a ∈ dedupFirstAux seen l → a ∈ l ∧ a ∉ seen := by
  induction l with
  | nil => intro seen a h; simp [dedupFirstAux] at h
  | cons x xs ih =>
    intro seen a h
    by_cases hx : seen.contains x
    · simp only [dedupFirstAux, if_pos hx] at h
      obtain ⟨h1, h2⟩ := ih seen a h
      exact ⟨List.mem_cons_of_mem x h1, h2⟩
    · simp only [dedupFirstAux, if_neg hx] at h
      rcases List.mem_cons.mp h with rfl | h'
      · refine ⟨List.mem_cons_self a xs, ?_⟩
        intro hmem
        exact hx (by simpa using hmem)
      · obtain ⟨h1, h2⟩ := ih (x :: seen) a h'
        exact ⟨List.mem_cons_of_mem x h1, fun hm => h2 (List.mem_cons_of_mem x hm)⟩

/-- The deduplication never repeats an element. -/
theorem nodup_dedupFirstAux (l : List String) :
    ∀ seen : List String, (dedupFirstAux seen l).Nodup := by
  induction l with
  | nil => intro seen; simp [dedupFirstAux]
  | cons x xs ih =>
    intro seen
    by_cases hx : seen.contains x
    · simpa only [dedupFirstAux, if_pos hx] using ih seen
    · simp only [dedupFirstAux, if_neg hx]
      refine List.nodup_cons.mpr ⟨?_, ih (x :: seen)⟩
      intro hmem
      exact (mem_dedupFirstAux xs (x :: seen) x hmem).2 (List.mem_cons_self x seen)

/-- The candidate chain contains no duplicate model identifiers. -/
theorem candidateChain_nodup (env : Env) : (candidateChain env).Nodup :=
  nodup_dedupFirstAux _ []

/-- The candidate chain starts with the resolved current model. -/
theorem candidateChain_head (env : Env) :
    (candidateChain env).head? = some (resolveCurrentModel env) := by
  simp [candidateChain, dedupFirst, dedupFirstAux]

/-- Unfolding equation of the retry loop on a nonempty candidate
list. -/
theorem retryLoop_cons {T : Type} (k : String)
    (op : String → GoogleGenAI → Except String T)
    (m : String) (rest : List String) (le : Option String) :
    retryLoop k op (m :: rest) le =
      match op m ⟨k⟩ with
      | Except.ok v => (Except.ok v, [m])
      | Except.error e =>
        ((retryLoop k op rest (some e)).1, m :: (retryLoop k op rest (some e)).2) := rfl

/-- When the operation fails for the first n candidates and succeeds on
the following one, the retry loop returns that success and the trace is
exactly the first n plus one candidates. -/
theorem retryLoop_first_success {T : Type} (k : String)
    (op : String → GoogleGenAI → Except String T) :
    ∀ (ms : List String) (le : Option String) (n : Nat) (v : T),
      n < ms.length →
      (∀ i, i < n → ∃ e, op (ms.getD i "") ⟨k⟩ = Except.error e) →
      op (ms.getD n "") ⟨k⟩ = Except.ok v →
      retryLoop k op ms le = (Except.ok v, ms.take (n + 1)) := by
  intro ms
  induction ms with
  | nil => intro le n v hn _ _; simp at hn
  | cons m rest ih =>
    intro le n v hn hfail hsucc
    cases n with
    | zero =>
      simp only [List.getD_cons_zero] at hsucc
      simp [retryLoop, hsucc]
    | succ n' =>
      obtain ⟨e, he⟩ := hfail 0 (Nat.succ_pos n')
      simp only [List.getD_cons_zero] at he
      have hrec := ih (some e) n' v (by simpa using hn)
        (fun i hi => by simpa using hfail (i + 1) (by omega))
        (by simpa using hsucc)
      simp [retryLoop, he, hrec]

/-- When the operation fails on every candidate, the retry loop fails
with the aggregated error built from the last recorded failure, and the
trace is the whole candidate list. -/
theorem retryLoop_all_error {T : Type} (k : String)
    (op : String → GoogleGenAI → Except String T) (errOf : String → String) :
    ∀ (ms : List String) (le : Option String),
      (∀ m, m ∈ ms → op m ⟨k⟩ = Except.error (errOf m)) →
      retryLoop k op ms le =
        (Except.error (exhaustedError
          (match ms.getLast? with
           | some m => some (errOf m)
           | none => le)), ms) := by
  intro ms
  induction ms with
  | nil => intro le _; simp [retryLoop]
  | cons m rest ih =>
    intro le hfail
    have hm := hfail m (List.mem_cons_self m rest)
    have hrec := ih (some (errOf m)) (fun x hx => hfail x (List.mem_cons_of_mem m hx))
    cases rest with
    | nil => simp [retryLoop, hm, hrec]
    | cons r rs =>
      have step : retryLoop k op (m :: r :: rs) le =
          ((retryLoop k op (r :: rs) (some (errOf m))).1,
           m :: (retryLoop k op (r :: rs) (some (errOf m))).2) := by
        rw [retryLoop_cons, hm]
      obtain ⟨x, hx⟩ := Option.isSome_iff_exists.mp
        (List.getLast?_isSome.mpr (List.cons_ne_nil r rs))
      rw [step, hrec, List.getLast?_cons_cons, hx]

/-- When the operation never succeeds, the retry loop fails and its
trace is the whole candidate list. -/
theorem retryLoop_no_success {T : Type} (k : String)
    (op : String → GoogleGenAI → Except String T)
    (hop : ∀ m (v : T), op m ⟨k⟩ ≠ Except.ok v) :
    ∀ (ms : List String) (le : Option String),
      ∃ msg, retryLoop k op ms le = (Except.error msg, ms) := by
  intro ms
  induction ms with
  | nil => intro le; exact ⟨exhaustedError le, rfl⟩
  | cons m rest ih =>
    intro le
    cases h : op m ⟨k⟩ with
    | ok v => exact absurd h (hop m v)
    | error e =>
      obtain ⟨msg, hmsg⟩ := ih (some e)
      exact ⟨msg, by simp [retryLoop, h, hmsg]⟩

/-- With a resolvable key, the retry wrapper is the retry loop over the
candidate chain. -/
theorem callAIWithRetry_key {T : Type} (env : Env) (name : String)
    (op : String → GoogleGenAI → Except String T)
    (h : (getApiKey env).isEmpty = false) :
    callAIWithRetry env name op =
      retryLoop (getApiKey env) op (candidateChain env) none := by
  simp [callAIWithRetry, h]

/-- With an empty key, the retry wrapper fails at once with the missing
key error and an empty trace. -/
theorem callAIWithRetry_missing_key {T : Type} (env : Env) (name : String)
    (op : String → GoogleGenAI → Except String T)
    (h : getApiKey env = "") :
    callAIWithRetry env name op = (Except.error missingKeyError, []) := by
  have h' : (getApiKey env).isEmpty = true := by rw [h]; rfl
  simp [callAIWithRetry, h']

/-- When no attempt can yield audio for the given text, generateSpeech
returns the empty string, whatever the environment. -/
theorem generateSpeech_empty_of_never_ok (env : Env)
    (tts : String → String → GoogleGenAI → Except String GenResponse)
    (text : String)
    (h : ∀ m a (s : String), generateSpeechOp tts text m a ≠ Except.ok s) :
    generateSpeech env tts text = "" := by
  unfold generateSpeech
  cases hkey : (getApiKey env).isEmpty with
  | true =>
    rw [callAIWithRetry_missing_key env _ _ ((String.isEmpty_iff _).mp hkey)]
  | false =>
    rw [callAIWithRetry_key env _ _ hkey]
    obtain ⟨msg, hmsg⟩ := retryLoop_no_success (getApiKey env) _
      (fun m v => h m ⟨getApiKey env⟩ v) (candidateChain env) none
    rw [hmsg]

set_option maxHeartbeats 2000000 in
/-- At a position whose head is not a backtick, the fence scan keeps
the character and moves on. -/
theorem stripFences_cons_ne (c : Char) (l : List Char) (h : c ≠ '\x60') :
    stripFences (c :: l) = c :: stripFences l := by
  rw [stripFences.eq_def]
  split <;> simp_all

/-- A json-tagged fence with a following newline is removed whole. -/
theorem stripFences_jsonNl (ys : List Char) :
    stripFences ('\x60' :: '\x60' :: '\x60' :: 'j' :: 's' :: 'o' :: 'n' :: '\n' :: ys) =
      stripFences ys := rfl

set_option maxHeartbeats 2000000 in
/-- A bare fence not followed by the letter j is removed and scanning
resumes right after it. -/
theorem stripFences_fence (c : Char) (ys : List Char) (h : c ≠ 'j') :
    stripFences ('\x60' :: '\x60' :: '\x60' :: c :: ys) = stripFences (c :: ys) := by
  rw [stripFences.eq_def]
  split <;> simp_all
  rename_i hno heq
  exact absurd heq.2.symm (hno (c :: ys) heq.1.symm)

/-- A bare fence at the end of the input is removed. -/
theorem stripFences_fence_nil :
    stripFences ['\x60', '\x60', '\x60'] = [] := rfl

/-- The fence scan passes over a backtick-free block unchanged. -/
theorem stripFences_append (xs : List Char) (h : xs.contains '\x60' = false)
    (ys : List Char) : stripFences (xs ++ ys) = xs ++ stripFences ys := by
  induction xs with
  | nil => simp
  | cons c xs ih =>
    simp only [List.contains_cons, Bool.or_eq_false_iff, beq_eq_false_iff_ne] at h
    rw [List.cons_append, stripFences_cons_ne c (xs ++ ys) (fun hc => h.1 hc.symm), ih h.2]
    simp

/-- The fence scan leaves a backtick-free input unchanged. -/
theorem stripFences_id (xs : List Char) (h : xs.contains '\x60' = false) :
    stripFences xs = xs := by
  have := stripFences_append xs h []
  simpa [show stripFences ([] : List Char) = [] from rfl] using this

/-- A bare fence followed by a backtick-free block not starting with
the letter j is deleted exactly. -/
theorem stripFences_fence_exact (ys : List Char) (hy : ys.contains '\x60' = false)
    (hj : ys.head? ≠ some 'j') :
    stripFences ('\x60' :: '\x60' :: '\x60' :: ys) = ys := by
  cases ys with
  | nil => exact stripFences_fence_nil
  | cons c ys' =>
    have hc : c ≠ 'j' := by
      intro h
      exact hj (by simp [h])
    rw [stripFences_fence c ys' hc, stripFences_id _ hy]

/-- A json-tagged fence with newline followed by a backtick-free block
is deleted exactly. -/
theorem stripFences_jsonNl_exact (ys : List Char) (hy : ys.contains '\x60' = false) :
    stripFences ('\x60' :: '\x60' :: '\x60' :: 'j' :: 's' :: 'o' :: 'n' :: '\n' :: ys) =
      ys := by
  rw [stripFences_jsonNl]
  exact stripFences_id ys hy

/-- C6: the response parser maps the fenced payload with score 7 to the
object with a single score field of 7, maps the same unfenced payload
to the same object, and rejects the input that is not JSON. -/
theorem responseContract_parse_examples :
    jsonParse (cleanJsonString "\x60\x60\x60json\n\x7b\"score\":7\x7d\n\x60\x60\x60") =
      some (Json.obj [("score", Json.num 7)])
    ∧ jsonParse (cleanJsonString "\x7b\"score\":7\x7d") =
      some (Json.obj [("score", Json.num 7)])
    ∧ jsonParse (cleanJsonString "not json") = none :=
  ⟨rfl, rfl, rfl⟩

/-- C8: cleanJsonString deletes every fence-marker occurrence anywhere
in the input, including inside JSON string values, and trims the
result; deletion is not restricted to markers surrounding the
payload. The first conjunct deletes a bare marker between two
backtick-free blocks, the second a json-tagged marker with newline, the
third a marker inside a JSON string value, and the fourth two distinct
markers in one input together with the final trim. -/
theorem cleanJsonString_strips_anywhere (s1 s2 : String)
    (h1 : s1.data.contains '\x60' = false)
    (h2 : s2.data.contains '\x60' = false)
    (hj : s2.data.head? ≠ some 'j') :
    cleanJsonString (s1 ++ "\x60\x60\x60" ++ s2) =
      String.mk (trimChars (s1.data ++ s2.data))
    ∧ cleanJsonString (s1 ++ "\x60\x60\x60json\n" ++ s2) =
      String.mk (trimChars (s1.data ++ s2.data))
    ∧ cleanJsonString "\x7b\"a\":\"x\x60\x60\x60y\"\x7d" = "\x7b\"a\":\"xy\"\x7d"
    ∧ cleanJsonString "  a\x60\x60\x60json\nb\x60\x60\x60c  " = "abc" := by
  refine ⟨?_, ?_, rfl, rfl⟩
  · unfold cleanJsonString
    have hdata : (s1 ++ "\x60\x60\x60" ++ s2).data
        = s1.data ++ ('\x60' :: '\x60' :: '\x60' :: s2.data) := by
      rw [String.data_append, String.data_append, List.append_assoc]
      rfl
    rw [hdata, stripFences_append s1.data h1, stripFences_fence_exact s2.data h2 hj]
  · unfold cleanJsonString
    have hdata : (s1 ++ "\x60\x60\x60json\n" ++ s2).data
        = s1.data ++
          ('\x60' :: '\x60' :: '\x60' :: 'j' :: 's' :: 'o' :: 'n' :: '\n' :: s2.data) := by
      rw [String.data_append, String.data_append, List.append_assoc]
      rfl
    rw [hdata, stripFences_append s1.data h1, stripFences_jsonNl_exact s2.data h2]

/-- Witness instantiating the fence-stripping theorem at concrete
blocks. -/
theorem cleanJsonString_strips_anywhere_witness :
    ("x".data.contains '\x60' = false)
    ∧ cleanJsonString ("x" ++ "\x60\x60\x60" ++ "y") =
      String.mk (trimChars ("x".data ++ "y".data)) :=
  ⟨by decide,
   (cleanJsonString_strips_anywhere "x" "y" (by decide) (by decide) (by decide)).1⟩

/-- C3: when the credential resolver yields the empty string, the retry
wrapper fails at once with the missing-credential error, whose text
names the Settings action, and the operation is never invoked: the
attempt trace is empty, for every operation. -/
theorem missing_key_no_attempts {T : Type} (env : Env) (name : String)
    (op : String → GoogleGenAI → Except String T)
    (hkey : getApiKey env = "") :
    callAIWithRetry env name op = (Except.error missingKeyError, [])
    ∧ "Settings".data <:+: missingKeyError.data := by
  refine ⟨callAIWithRetry_missing_key env name op hkey, ?_⟩
  decide

/-- Witness: an environment with no stored key, no configured key and
no window resolves to the empty credential, and the wrapper then makes
zero attempts. -/
theorem missing_key_no_attempts_witness :
    getApiKey ⟨false, none, none, none, none⟩ = ""
    ∧ callAIWithRetry ⟨false, none, none, none, none⟩ "analyzeWriting"
        (fun _ _ => (Except.ok 0 : Except String Nat)) =
      (Except.error missingKeyError, []) :=
  ⟨rfl,
   (missing_key_no_attempts ⟨false, none, none, none, none⟩ "analyzeWriting"
     (fun _ _ => (Except.ok 0 : Except String Nat)) rfl).1⟩

/-- C1: with a resolvable key, when the operation fails for the first n
candidates of the chain and succeeds on the following one, the retry
wrapper returns that success, its attempt trace is exactly the first
n plus one chain entries in chain order, and that trace repeats no
model. -/
theorem callAIWithRetry_ordered_first_success {T : Type} (env : Env)
    (name : String) (op : String → GoogleGenAI → Except String T)
    (n : Nat) (v : T)
    (hkey : (getApiKey env).isEmpty = false)
    (hn : n < (candidateChain env).length)
    (hfail : ∀ i, i < n →
      ∃ e, op ((candidateChain env).getD i "") ⟨getApiKey env⟩ = Except.error e)
    (hsucc : op ((candidateChain env).getD n "") ⟨getApiKey env⟩ = Except.ok v) :
    callAIWithRetry env name op = (Except.ok v, (candidateChain env).take (n + 1))
    ∧ ((candidateChain env).take (n + 1)).length = n + 1
    ∧ ((candidateChain env).take (n + 1)).Nodup := by
  refine ⟨?_, ?_, ?_⟩
  · rw [callAIWithRetry_key env name op hkey]
    exact retryLoop_first_success (getApiKey env) op (candidateChain env) none n v
      hn hfail hsucc
  · rw [List.length_take]
    omega
  · exact (candidateChain_nodup env).sublist (List.take_sublist (n + 1) _)

/-- Witness: with a stored key and the default chain, an operation
failing on the first model and succeeding on the second returns that
success after exactly the two attempts, in order. -/
theorem callAIWithRetry_ordered_first_success_witness :
    ((getApiKey ⟨true, some "k", none, none, none⟩).isEmpty = false)
    ∧ callAIWithRetry ⟨true, some "k", none, none, none⟩ "demo"
        (fun m _ => if m == "gemini-3-pro-preview" then Except.ok 7
                    else (Except.error "boom" : Except String Nat)) =
      (Except.ok 7, ["gemini-3-flash-preview", "gemini-3-pro-preview"]) :=
  ⟨rfl,
   (callAIWithRetry_ordered_first_success ⟨true, some "k", none, none, none⟩ "demo"
     (fun m _ => if m == "gemini-3-pro-preview" then Except.ok 7
                 else (Except.error "boom" : Except String Nat)) 1 7 rfl (by decide)
     (fun i hi => ⟨"boom", by
       have h0 : i = 0 := by omega
       subst h0
       rfl⟩)
     rfl).1⟩

set_option maxRecDepth 8192 in
/-- C2 counterexample: with a configured key and an operation that
fails on every model, the aggregated error thrown after exhausting the
chain is the overload message carrying the last error, and the
operation label analyzeWriting is not contained in it. -/
theorem aggregated_error_lacks_label :
    (callAIWithRetry ⟨false, none, some "k", none, none⟩ "analyzeWriting"
      (fun _ _ => (Except.error "boom" : Except String Nat))).1 =
      Except.error
        "System overloaded or Model Error. Please try again later. (Last error: boom)"
    ∧ ¬ ("analyzeWriting".data <:+:
      "System overloaded or Model Error. Please try again later. (Last error: boom)".data) :=
  ⟨rfl, by decide⟩

/-- C2 (amended): with a resolvable key, an operation failing on every
candidate makes the wrapper fail after exactly the whole chain of
attempts, never fewer and never more, with a single aggregated error
containing the message of the last recorded attempt error; the
operation label is not part of the thrown error, appearing only in the
elided console logging. -/
theorem callAIWithRetry_exhausted_aggregates_last_error {T : Type} (env : Env)
    (name : String) (op : String → GoogleGenAI → Except String T)
    (errOf : String → String) (lastModel : String)
    (hkey : (getApiKey env).isEmpty = false)
    (hlast : (candidateChain env).getLast? = some lastModel)
    (hfail : ∀ m, m ∈ candidateChain env →
      op m ⟨getApiKey env⟩ = Except.error (errOf m)) :
    callAIWithRetry env name op =
      (Except.error (exhaustedError (some (errOf lastModel))), candidateChain env)
    ∧ (callAIWithRetry env name op).2.length = (candidateChain env).length
    ∧ (errOf lastModel).data <:+: (exhaustedError (some (errOf lastModel))).data := by
  have hmain : callAIWithRetry env name op =
      (Except.error (exhaustedError (some (errOf lastModel))), candidateChain env) := by
    rw [callAIWithRetry_key env name op hkey]
    have hall := retryLoop_all_error (getApiKey env) op errOf (candidateChain env)
      none hfail
    simpa [hlast] using hall
  refine ⟨hmain, by rw [hmain], ?_⟩
  refine ⟨"System overloaded or Model Error. Please try again later. (Last error: ".data,
    ")".data, ?_⟩
  simp [exhaustedError, String.data_append]

/-- Witness: a configured key, every attempt failing with the same
message, exhausting the three-model default chain. -/
theorem callAIWithRetry_exhausted_aggregates_last_error_witness :
    ((candidateChain ⟨false, none, some "k", none, none⟩).getLast? =
      some "gemini-2.5-flash")
    ∧ callAIWithRetry ⟨false, none, some "k", none, none⟩ "demo"
        (fun _ _ => (Except.error "boom" : Except String Nat)) =
      (Except.error (exhaustedError (some "boom")),
        candidateChain ⟨false, none, some "k", none, none⟩) :=
  ⟨rfl,
   (callAIWithRetry_exhausted_aggregates_last_error ⟨false, none, some "k", none, none⟩
     "demo" (fun _ _ => (Except.error "boom" : Except String Nat)) (fun _ => "boom")
     "gemini-2.5-flash" rfl rfl (fun m _ => rfl)).1⟩

/-- C4: in a browser context the candidate chain has no duplicates, its
first element is the resolved current model, that first element is the
persisted preference whenever the preference is in the supported set
and the fixed default otherwise, and the concrete scenario with
preferred model gemini-2.5-flash yields exactly the chain of that model
followed by the two remaining fallbacks in first-occurrence order. -/
theorem candidateChain_nodup_pref_first (saved lk ek gk : Option String) :
    (candidateChain ⟨true, lk, ek, gk, saved⟩).Nodup
    ∧ (candidateChain ⟨true, lk, ek, gk, saved⟩).head? =
        some (resolveCurrentModel ⟨true, lk, ek, gk, saved⟩)
    ∧ ((SUPPORTED_MODELS.any fun m => m.id == saved.getD "") = true →
        (candidateChain ⟨true, lk, ek, gk, saved⟩).head? = some (saved.getD ""))
    ∧ ((SUPPORTED_MODELS.any fun m => m.id == saved.getD "") = false →
        (candidateChain ⟨true, lk, ek, gk, saved⟩).head? =
          some "gemini-3-flash-preview")
    ∧ candidateChain ⟨true, lk, ek, gk, some "gemini-2.5-flash"⟩ =
        ["gemini-2.5-flash", "gemini-3-flash-preview", "gemini-3-pro-preview"] := by
  refine ⟨candidateChain_nodup _, candidateChain_head _, ?_, ?_, rfl⟩
  · intro h
    rw [candidateChain_head]
    cases saved with
    | none => exact absurd h (by decide)
    | some s =>
      have hs : "gemini-3-flash-preview" = s ∨ "gemini-3-pro-preview" = s ∨
          "gemini-2.5-flash" = s := by
        simpa [SUPPORTED_MODELS] using h
      rcases hs with rfl | rfl | rfl <;> rfl
  · intro h
    rw [candidateChain_head]
    cases saved with
    | none => rfl
    | some s =>
      simp only [Option.getD_some] at h
      have hr : resolveCurrentModel ⟨true, lk, ek, gk, some s⟩ =
          "gemini-3-flash-preview" := by
        simp [resolveCurrentModel, h]
      rw [hr]

/-- Witness: the supported preference gemini-2.5-flash heads the
chain. -/
theorem candidateChain_nodup_pref_first_witness :
    ((SUPPORTED_MODELS.any
        fun m => m.id == (some "gemini-2.5-flash" : Option String).getD "") = true)
    ∧ (candidateChain ⟨true, none, none, none, some "gemini-2.5-flash"⟩).head? =
        some ((some "gemini-2.5-flash" : Option String).getD "") :=
  ⟨by decide,
   (candidateChain_nodup_pref_first (some "gemini-2.5-flash") none none none).2.2.1
     (by decide)⟩

/-- C7: when no candidate attempt can obtain audio for the given text,
generateSpeech returns the empty string to its caller instead of an
error; and when some attempt succeeds after the earlier candidates
failed, it returns the encoded audio payload of that first success. -/
theorem generateSpeech_best_effort (env : Env)
    (tts : String → String → GoogleGenAI → Except String GenResponse)
    (text : String) :
    ((∀ m a (s : String), generateSpeechOp tts text m a ≠ Except.ok s) →
      generateSpeech env tts text = "")
    ∧ (∀ n (audio : String), (getApiKey env).isEmpty = false →
        n < (candidateChain env).length →
        (∀ i, i < n → ∃ e, generateSpeechOp tts text ((candidateChain env).getD i "")
            ⟨getApiKey env⟩ = Except.error e) →
        generateSpeechOp tts text ((candidateChain env).getD n "") ⟨getApiKey env⟩ =
          Except.ok audio →
        generateSpeech env tts text = audio) := by
  constructor
  · intro h
    exact generateSpeech_empty_of_never_ok env tts text h
  · intro n audio hkey hn hfail hsucc
    unfold generateSpeech
    rw [callAIWithRetry_key env _ _ hkey,
      retryLoop_first_success (getApiKey env) _ (candidateChain env) none n audio
        hn hfail hsucc]

/-- Witness: a synthesis oracle that always fails makes generateSpeech
return the empty string. -/
theorem generateSpeech_best_effort_witness :
    (generateSpeechOp (fun _ _ _ => Except.error "down") "hi" "m" ⟨"k"⟩ =
      Except.error "down")
    ∧ generateSpeech ⟨true, some "k", none, none, none⟩
        (fun _ _ _ => Except.error "down") "hi" = "" :=
  ⟨rfl,
   (generateSpeech_best_effort ⟨true, some "k", none, none, none⟩
     (fun _ _ _ => Except.error "down") "hi").1
     (fun m a s h => by simp [generateSpeechOp] at h)⟩

/-- C5: inside analyzeWriting a malformed-JSON reply from one candidate
is an ordinary attempt failure: the operation for that model fails with
the parse error, the failure is consumed inside the retry loop rather
than reaching the caller, and the wrapper falls back to the next
candidate, returning its success. -/
theorem analyzeWriting_malformed_falls_back (env : Env)
    (gen : String → GoogleGenAI → Except String GenResponse)
    (m0 m1 : String) (rest : List String)
    (hkey : (getApiKey env).isEmpty = false)
    (hchain : candidateChain env = m0 :: m1 :: rest)
    (resp0 : GenResponse)
    (h0 : gen m0 ⟨getApiKey env⟩ = Except.ok resp0)
    (hbad : jsonParse (cleanJsonString (textOrEmptyObject resp0.text)) = none)
    (j : Json)
    (h1 : analyzeWritingOp gen m1 ⟨getApiKey env⟩ = Except.ok j) :
    analyzeWritingOp gen m0 ⟨getApiKey env⟩ = Except.error jsonParseErrorMsg
    ∧ analyzeWriting env gen = (Except.ok j, [m0, m1]) := by
  have hop0 : analyzeWritingOp gen m0 ⟨getApiKey env⟩ =
      Except.error jsonParseErrorMsg := by
    simp [analyzeWritingOp, h0, hbad]
  refine ⟨hop0, ?_⟩
  unfold analyzeWriting
  rw [callAIWithRetry_key env _ _ hkey, hchain]
  have step1 : retryLoop (getApiKey env) (analyzeWritingOp gen) (m0 :: m1 :: rest)
      none =
      ((retryLoop (getApiKey env) (analyzeWritingOp gen) (m1 :: rest)
          (some jsonParseErrorMsg)).1,
        m0 :: (retryLoop (getApiKey env) (analyzeWritingOp gen) (m1 :: rest)
          (some jsonParseErrorMsg)).2) := by
    rw [retryLoop_cons, hop0]
  have step2 : retryLoop (getApiKey env) (analyzeWritingOp gen) (m1 :: rest)
      (some jsonParseErrorMsg) = (Except.ok j, [m1]) := by
    rw [retryLoop_cons, h1]
  rw [step1, step2]

/-- Witness: the first candidate answers prose that is not JSON, the
second answers an empty object; analyzeWriting succeeds on the second
attempt. -/
theorem analyzeWriting_malformed_falls_back_witness :
    (jsonParse (cleanJsonString (textOrEmptyObject (some "not json"))) = none)
    ∧ analyzeWriting ⟨true, some "k", none, none, none⟩
        (fun m _ => if m == "gemini-3-flash-preview" then
            Except.ok ⟨some "not json", none⟩
          else Except.ok ⟨some "\x7b\x7d", none⟩) =
      (Except.ok (Json.obj []), ["gemini-3-flash-preview", "gemini-3-pro-preview"]) :=
  ⟨rfl,
   (analyzeWriting_malformed_falls_back ⟨true, some "k", none, none, none⟩
     (fun m _ => if m == "gemini-3-flash-preview" then
         Except.ok ⟨some "not json", none⟩
       else Except.ok ⟨some "\x7b\x7d", none⟩)
     "gemini-3-flash-preview" "gemini-3-pro-preview" ["gemini-2.5-flash"]
     rfl rfl ⟨some "not json", none⟩ rfl rfl (Json.obj []) rfl).2⟩

/-- C9: whenever the model reply carries an absent or empty text, every
JSON task caller substitutes the literal empty-object text before
parsing, so the attempt succeeds with an object that has no fields
instead of failing: analyzeWriting, gradeSpeakingSession and
analyzePronunciation return the empty object, and interactWithExaminer
builds its turn from the empty object, with empty transcription, an
absent response field and no audio. -/
theorem emptyModelText_yields_empty_object
    (gen : String → GoogleGenAI → Except String GenResponse)
    (tts : String → String → GoogleGenAI → Except String GenResponse)
    (env : Env) (m : String) (a : GoogleGenAI) (resp : GenResponse)
    (hok : gen m a = Except.ok resp)
    (hempty : truthyOpt resp.text = false) :
    analyzeWritingOp gen m a = Except.ok (Json.obj [])
    ∧ gradeSpeakingSessionOp gen m a = Except.ok (Json.obj [])
    ∧ analyzePronunciationOp gen m a = Except.ok (Json.obj [])
    ∧ interactOp gen tts env m a = Except.ok ⟨Json.str "", none, ""⟩ := by
  have htext : textOrEmptyObject resp.text = "\x7b\x7d" := by
    simp [textOrEmptyObject, hempty]
  refine ⟨?_, ?_, ?_, ?_⟩
  all_goals simp [analyzeWritingOp, gradeSpeakingSessionOp, analyzePronunciationOp,
    interactOp, hok, htext]
  all_goals rfl

/-- Witness: a reply with no text field makes the writing analysis
attempt succeed with the empty object. -/
theorem emptyModelText_yields_empty_object_witness :
    (truthyOpt ((⟨none, none⟩ : GenResponse)).text = false)
    ∧ analyzeWritingOp (fun _ _ => Except.ok ⟨none, none⟩) "m" ⟨"k"⟩ =
        Except.ok (Json.obj []) :=
  ⟨rfl,
   (emptyModelText_yields_empty_object (fun _ _ => Except.ok ⟨none, none⟩)
     (fun _ _ _ => Except.error "down") ⟨true, some "k", none, none, none⟩ "m" ⟨"k"⟩
     ⟨none, none⟩ rfl rfl).1⟩

/-- Normal form of a successful examiner turn: when the reply parses to
a non-null value, the turn is built from its transcription and response
fields, with audio synthesised only for a truthy response field. -/
theorem interactOp_eq_ok
    (gen : String → GoogleGenAI → Except String GenResponse)
    (tts : String → String → GoogleGenAI → Except String GenResponse)
    (env : Env) (m : String) (a : GoogleGenAI) (resp : GenResponse) (result : Json)
    (hgen : gen m a = Except.ok resp)
    (hparse : jsonParse (cleanJsonString (textOrEmptyObject resp.text)) = some result)
    (hnn : result ≠ Json.null) :
    interactOp gen tts env m a = Except.ok
      ⟨(if jsTruthy (jsonField result "transcription") then
          (jsonField result "transcription").getD Json.null
        else Json.str ""),
        jsonField result "response",
        (if jsTruthy (jsonField result "response") then
          generateSpeech env tts (jsStringOf ((jsonField result "response").getD Json.null))
        else "")⟩ := by
  simp only [interactOp, hgen, hparse]

/-- C10: the nested speech-synthesis stage never makes an examiner turn
fail and never changes its text fields: whether the turn errs does not
depend on the synthesis oracle; the transcription and response of a
successful turn do not depend on it; no audio is produced when the
parsed response field is not truthy; a truthy response field receives
exactly the best-effort synthesis result; and a synthesis stage that
cannot obtain audio leaves the audio of a successful turn empty. -/
theorem interactOp_synthesis_isolated (env : Env)
    (gen : String → GoogleGenAI → Except String GenResponse)
    (tts tts2 : String → String → GoogleGenAI → Except String GenResponse)
    (m : String) (a : GoogleGenAI) :
    (∀ e, interactOp gen tts env m a = Except.error e ↔
      interactOp gen tts2 env m a = Except.error e)
    ∧ (∀ r r2, interactOp gen tts env m a = Except.ok r →
        interactOp gen tts2 env m a = Except.ok r2 →
        r.userTranscription = r2.userTranscription ∧ r.aiResponse = r2.aiResponse)
    ∧ (∀ r, interactOp gen tts env m a = Except.ok r →
        jsTruthy r.aiResponse = false → r.aiAudioBase64 = "")
    ∧ (∀ r, interactOp gen tts env m a = Except.ok r →
        jsTruthy r.aiResponse = true →
        r.aiAudioBase64 =
          generateSpeech env tts (jsStringOf (r.aiResponse.getD Json.null)))
    ∧ ((∀ t m2 a2 (s : String), generateSpeechOp tts t m2 a2 ≠ Except.ok s) →
        ∀ r, interactOp gen tts env m a = Except.ok r → r.aiAudioBase64 = "") := by
  cases hgen : gen m a with
  | error e0 =>
    have hA : ∀ tts' : String → String → GoogleGenAI → Except String GenResponse,
        interactOp gen tts' env m a = Except.error e0 := fun tts' => by
      simp [interactOp, hgen]
    exact ⟨fun e => by rw [hA tts, hA tts2],
      fun r r2 hr _ => by rw [hA tts] at hr; exact absurd hr (by simp),
      fun r hr _ => by rw [hA tts] at hr; exact absurd hr (by simp),
      fun r hr _ => by rw [hA tts] at hr; exact absurd hr (by simp),
      fun _ r hr => by rw [hA tts] at hr; exact absurd hr (by simp)⟩
  | ok resp =>
    cases hparse : jsonParse (cleanJsonString (textOrEmptyObject resp.text)) with
    | none =>
      have hA : ∀ tts' : String → String → GoogleGenAI → Except String GenResponse,
          interactOp gen tts' env m a = Except.error jsonParseErrorMsg := fun tts' => by
        simp [interactOp, hgen, hparse]
      exact ⟨fun e => by rw [hA tts, hA tts2],
        fun r r2 hr _ => by rw [hA tts] at hr; exact absurd hr (by simp),
        fun r hr _ => by rw [hA tts] at hr; exact absurd hr (by simp),
        fun r hr _ => by rw [hA tts] at hr; exact absurd hr (by simp),
        fun _ r hr => by rw [hA tts] at hr; exact absurd hr (by simp)⟩
    | some result =>
      by_cases hnn : result = Json.null
      · subst hnn
        have hA : ∀ tts' : String → String → GoogleGenAI → Except String GenResponse,
            interactOp gen tts' env m a = Except.error typeErrorNullMsg := fun tts' => by
          simp [interactOp, hgen, hparse]
        exact ⟨fun e => by rw [hA tts, hA tts2],
          fun r r2 hr _ => by rw [hA tts] at hr; exact absurd hr (by simp),
          fun r hr _ => by rw [hA tts] at hr; exact absurd hr (by simp),
          fun r hr _ => by rw [hA tts] at hr; exact absurd hr (by simp),
          fun _ r hr => by rw [hA tts] at hr; exact absurd hr (by simp)⟩
      · have h1 := interactOp_eq_ok gen tts env m a resp result hgen hparse hnn
        have h2 := interactOp_eq_ok gen tts2 env m a resp result hgen hparse hnn
        refine ⟨fun e => by simp [h1, h2], ?_, ?_, ?_, ?_⟩
        · intro r r2 hr hr2
          rw [h1] at hr
          rw [h2] at hr2
          have hr' := Except.ok.inj hr
          have hr2' := Except.ok.inj hr2
          subst hr'
          subst hr2'
          exact ⟨rfl, rfl⟩
        · intro r hr htr
          rw [h1] at hr
          have hr' := Except.ok.inj hr
          subst hr'
          simp only [] at htr ⊢
          simp [htr] at *
        · intro r hr htr
          rw [h1] at hr
          have hr' := Except.ok.inj hr
          subst hr'
          simp only [] at htr ⊢
          simp [htr] at *
        · intro hts r hr
          rw [h1] at hr
          have hr' := Except.ok.inj hr
          subst hr'
          cases htr : jsTruthy (jsonField result "response") with
          | false => simp [htr]
          | true =>
            simp only [htr, if_true]
            exact generateSpeech_empty_of_never_ok env tts _
              (fun m2 a2 s => hts _ m2 a2 s)

/-- Witness: an examiner reply carrying a response field, with a
synthesis oracle that always fails: the turn succeeds with its text
fields intact and an empty audio payload. -/
theorem interactOp_synthesis_isolated_witness :
    (interactOp (fun _ _ => Except.ok ⟨some "\x7b\"response\":\"hi\"\x7d", none⟩)
      (fun _ _ _ => Except.error "down") ⟨true, some "k", none, none, none⟩ "m" ⟨"k"⟩ =
      Except.ok ⟨Json.str "", some (Json.str "hi"), ""⟩)
    ∧ (⟨Json.str "", some (Json.str "hi"), ""⟩ : ExaminerTurn).aiAudioBase64 = "" :=
  ⟨rfl,
   (interactOp_synthesis_isolated ⟨true, some "k", none, none, none⟩
     (fun _ _ => Except.ok ⟨some "\x7b\"response\":\"hi\"\x7d", none⟩)
     (fun _ _ _ => Except.error "down") (fun _ _ _ => Except.error "down")
     "m" ⟨"k"⟩).2.2.2.2
     (fun t m2 a2 s h => by simp [generateSpeechOp] at h)
     ⟨Json.str "", some (Json.str "hi"), ""⟩ rfl⟩
